import Mathlib

/-!
Verification of the specification-extraction and multi-stage generation
pipeline of the fullstack-web-dev-Agent repository.

The Python source is shallowly embedded: Python dicts with possibly-absent
keys become structures with `Option` fields, the external text-generation
collaborator is abstracted as an outcome value (it either fails — raises or
returns unparsable text — or yields a parsed JSON object), and the
filesystem under the sandboxed output root is a list of (path, content)
write records.
-/

namespace FullstackAgent

/-! ## Data model (src/agents/planner_agent.py)

A `Field` mirrors one field dict of a resource: the `name` and `type` keys
may be absent (`none`). A `Resource` mirrors one resource dict: the
`fields` key may be absent. A `SpecDict` mirrors the specification dict
passed through `_validate_specification`; every top-level key may be
absent. -/

structure Field where
  name : Option String
  type : Option String
deriving DecidableEq, Repr

structure Resource where
  name : String
  fields : Option (List Field)
deriving DecidableEq, Repr

structure TechPrefs where
  backend : String
  frontend : String
  database : String
deriving DecidableEq, Repr

structure SpecDict where
  project_name : Option String
  description : Option String
  resources : Option (List Resource)
  features : Option (List String)
  tech_preferences : Option TechPrefs
  include_tests : Option Bool
  include_docker : Option Bool
  add_database : Option Bool
deriving DecidableEq, Repr

/-! ## String helpers

Kernel-reducible models of the Python string operations used by the code
(`str.lower`, `str.capitalize`, `str.split`, `str.startswith`,
`str.endswith`, slicing, and `pathlib` suffix/parts on clean relative
paths). They operate on the character lists underlying `String`. -/

/-- Python `str.lower` (ASCII; the keyword list the code matches against is
ASCII). -/
def strToLower (s : String) : String :=
  String.mk (s.toList.map Char.toLower)

/-- Python `str.capitalize`: first character upper-cased, the rest
lower-cased. -/
def strCapitalize (s : String) : String :=
  match s.toList with
  | [] => ""
  | c :: cs => String.mk (c.toUpper :: cs.map Char.toLower)

/-- Python `s[:n]` on code points. -/
def strTake (s : String) (n : Nat) : String :=
  String.mk (s.toList.take n)

/-- Python `str.startswith`. -/
def strStartsWith (s pre : String) : Bool :=
  pre.toList.isPrefixOf s.toList

/-- Python `str.endswith`. -/
def strEndsWith (s post : String) : Bool :=
  post.toList.isSuffixOf s.toList

/-- Split a character list at every character satisfying `p`; empty pieces
are kept (as with Python `str.split(sep)`). -/
def splitPred (p : Char → Bool) : List Char → List (List Char)
  | [] => [[]]
  | x :: xs =>
    let r := splitPred p xs
    if p x then [] :: r
    else
      match r with
      | [] => [[x]]
      | y :: ys => (x :: y) :: ys

/-- Python `str.split()` (no separator): split on whitespace and drop the
empty pieces. -/
def pyWords (s : String) : List String :=
  ((splitPred Char.isWhitespace s.toList).filter (fun w => ¬ w.isEmpty)).map String.mk

/-- Index of the last occurrence of `c`, if any. -/
def lastIdxOf (c : Char) : List Char → Option Nat
  | [] => none
  | x :: xs =>
    match lastIdxOf c xs with
    | some i => some (i + 1)
    | none => if x = c then some 0 else none

/-- `pathlib` components of a clean relative path (every path the pipeline
passes to the writer tools is of this form): split on `/`. -/
def pathParts (file_path : String) : List String :=
  (splitPred (fun c => c = '/') file_path.toList).map String.mk

/-- Final component of a path. -/
def fileName (file_path : String) : String :=
  (pathParts file_path).getLastD ""

/-- `pathlib` `suffix` of a path component: from the last dot on, provided
that dot is neither the first nor the last character (so ".gitignore" and
"name." have no suffix). -/
def nameSuffix (name : String) : String :=
  let cs := name.toList
  match lastIdxOf '.' cs with
  | some i => if 0 < i ∧ i < cs.length - 1 then String.mk (cs.drop i) else ""
  | none => ""

/-- `pathlib` `suffix` of the final component of a path. -/
def pathSuffix (file_path : String) : String :=
  nameSuffix (fileName file_path)

/-! ## Specification Extractor (PlannerAgent) -/

/-- The default fields `_validate_specification` injects into a resource
whose dict has no "fields" key. -/
def defaultFields : List Field :=
  [⟨some "id", some "int"⟩, ⟨some "created_at", some "date"⟩]

/-- The per-field step of `_validate_specification`: a missing name becomes
"unknown", a missing type becomes "str"; present values are untouched. -/
def validateField (f : Field) : Field :=
  ⟨some (f.name.getD "unknown"), some (f.type.getD "str")⟩

/-- The per-resource step of `_validate_specification`: an absent "fields"
key is replaced by the two default fields; then every field is defaulted. -/
def validateResource (r : Resource) : Resource :=
  match r.fields with
  | none => ⟨r.name, some (defaultFields.map validateField)⟩
  | some fs => ⟨r.name, some (fs.map validateField)⟩

/-- `PlannerAgent._validate_specification`: merge the defaults dict into the
missing (or null) top-level keys, then fix up every resource. -/
def validate_specification (s : SpecDict) : SpecDict where
  project_name := some (s.project_name.getD "my-fullstack-app")
  description := some (s.description.getD "A full-stack web application")
  resources := some ((s.resources.getD []).map validateResource)
  features := some (s.features.getD [])
  tech_preferences := some (s.tech_preferences.getD ⟨"fastapi", "react", "sqlite"⟩)
  include_tests := some (s.include_tests.getD true)
  include_docker := some (s.include_docker.getD true)
  add_database := some (s.add_database.getD false)

/-- The keyword list `_create_fallback_specification` scans the description
for. -/
def resource_keywords : List String :=
  ["user", "post", "product", "article", "task", "item"]

/-- Resource name chosen by the fallback path: the first keyword occurring
among the lower-cased words of the description, capitalized; otherwise
"Item". -/
def fallbackResourceName (description : String) : String :=
  let words := pyWords (strToLower description)
  match resource_keywords.find? (fun k => words.contains k) with
  | some k => strCapitalize k
  | none => "Item"

/-- `PlannerAgent._create_fallback_specification`. -/
def create_fallback_specification (description : String) : SpecDict where
  project_name := some "my-app"
  description := some (strTake description 100)
  resources := some [⟨fallbackResourceName description,
    some [⟨some "id", some "int"⟩, ⟨some "name", some "str"⟩,
          ⟨some "description", some "str"⟩, ⟨some "created_at", some "date"⟩]⟩]
  features := some ["CRUD operations"]
  tech_preferences := some ⟨"fastapi", "react", "sqlite"⟩
  include_tests := some true
  include_docker := some true
  add_database := some false

/-- Behavior of the text-generation collaborator in `analyze_description`:
either the `run_task` call raised or its answer failed `json.loads`
(`fail`), or a JSON object was parsed (`parsed`). -/
inductive ExtractOutcome where
  | fail
  | parsed (raw : SpecDict)
deriving DecidableEq, Repr

/-- `PlannerAgent.analyze_description`, parameterized by the collaborator's
behavior: a parsed answer is validated, any failure yields the fallback
specification built from the description. -/
def analyze_description (outcome : ExtractOutcome) (description : String) : SpecDict :=
  match outcome with
  | .fail => create_fallback_specification description
  | .parsed raw => validate_specification raw

/-- Behavior of the collaborator in `refine_specification`. -/
inductive RefineOutcome where
  | fail
  | parsed (raw : SpecDict)
deriving DecidableEq, Repr

/-- `PlannerAgent.refine_specification`, parameterized by the collaborator's
behavior: on any failure inside the try block the caller's specification is
returned unchanged. -/
def refine_specification (outcome : RefineOutcome) (specification : SpecDict)
    (user_feedback : String) : SpecDict :=
  match outcome with
  | .fail => specification
  | .parsed raw => validate_specification raw

/-! ## Specification invariants (claims C1, C9) -/

/-- A field dict has both its "name" and "type" keys set. -/
def fieldComplete (f : Field) : Prop :=
  f.name.isSome ∧ f.type.isSome

instance (f : Field) : Decidable (fieldComplete f) := by
  unfold fieldComplete; infer_instance

/-- Weak guarantee actually provided by validation: the resources key is
set, every resource's fields key is set, and every field has name and type
set. -/
def specFieldsComplete (s : SpecDict) : Prop :=
  s.resources.isSome ∧
    ∀ r ∈ s.resources.getD [], r.fields.isSome ∧ ∀ f ∈ r.fields.getD [], fieldComplete f

instance (s : SpecDict) : Decidable (specFieldsComplete s) := by
  unfold specFieldsComplete; infer_instance

/-- The Project Specification invariant claimed by the spec: at least one
resource, every resource with at least one field, every field with name and
type set. -/
def specInvariant (s : SpecDict) : Prop :=
  s.resources.getD [] ≠ [] ∧
    ∀ r ∈ s.resources.getD [], r.fields.getD [] ≠ [] ∧ ∀ f ∈ r.fields.getD [], fieldComplete f

instance (s : SpecDict) : Decidable (specInvariant s) := by
  unfold specInvariant; infer_instance

/-! ## Pipeline Orchestrator (src/agents/orchestrator.py)

Each stage generator call delegates to the text-generation collaborator and
either returns a result string or raises; that behavior is abstracted as an
`Outcome` per possible invocation, collected in a `StageBehavior`. The
report is the `results` dict in insertion order; the trace records which
generator methods were invoked with which arguments. -/

/-- Result of one stage generator invocation: it returned a string, or it
raised an exception with the given message. -/
inductive Outcome where
  | ok (result : String)
  | exn (msg : String)
deriving DecidableEq, Repr

/-- Outcomes of the (up to six) stage generator invocations of one run. -/
structure StageBehavior where
  backend : Outcome
  database : Outcome
  frontend : Outcome
  tests_backend : Outcome
  tests_frontend : Outcome
  docker : Outcome
deriving DecidableEq, Repr

/-- Value stored in the results dict for a wrapped invocation: the result
string on success, `"Error: " ++ msg` when the stage raised. -/
def outcomeResult : Outcome → String
  | .ok s => s
  | .exn m => "Error: " ++ m

/-- One stage generator invocation with its arguments, as issued by
`create_fullstack_app`. -/
inductive StageCall where
  | backend (project_name resource_name : String) (fields : List Field)
  | database (project_path db_type : String)
  | frontend (project_name resource_name : String)
  | tests_backend (project_name resource_name : String) (endpoints : List String)
  | tests_frontend (project_name : String) (components : List String)
  | docker (project_name : String) (has_database : Bool)
deriving DecidableEq, Repr

/-- The endpoints list built for the backend-tests invocation. -/
def testEndpoints (resource_name : String) : List String :=
  ["/" ++ strToLower resource_name ++ "s", "GET, POST, PUT, DELETE"]

/-- Results-dict entries produced by the tests step (one try block around
both test invocations): if the backend-tests call raises, the error lands
under the key "tests" and the frontend-tests call never happens; if the
frontend-tests call raises, "tests_backend" was already stored and the
error again lands under "tests". -/
def testsEntries (b : StageBehavior) : List (String × String) :=
  match b.tests_backend with
  | .exn m => [("tests", "Error: " ++ m)]
  | .ok s =>
    ("tests_backend", s) ::
      (match b.tests_frontend with
       | .ok s2 => [("tests_frontend", s2)]
       | .exn m => [("tests", "Error: " ++ m)])

/-- Generator invocations issued by the tests step. -/
def testsCalls (b : StageBehavior) (project_name resource_name : String) : List StageCall :=
  StageCall.tests_backend project_name resource_name (testEndpoints resource_name) ::
    (match b.tests_backend with
     | .ok _ => [StageCall.tests_frontend project_name ["App"]]
     | .exn _ => [])

/-- `OrchestratorAgent.create_fullstack_app`: backend, then database
augmentation when `add_database`, then frontend, then the tests step when
`include_tests`, then docker when `include_docker`; each step's exception is
caught and recorded, and the run always reaches the end. Returns the
results dict (insertion order) and the trace of generator invocations. -/
def create_fullstack_app (b : StageBehavior) (project_name resource_name : String)
    (fields : List Field) (include_tests include_docker add_database : Bool) :
    List (String × String) × List StageCall :=
  (("backend", outcomeResult b.backend) ::
     ((if add_database then [("database", outcomeResult b.database)] else []) ++
      (("frontend", outcomeResult b.frontend) ::
        ((if include_tests then testsEntries b else []) ++
         (if include_docker then [("docker", outcomeResult b.docker)] else [])))),
   StageCall.backend project_name resource_name fields ::
     ((if add_database then [StageCall.database "backend" "sqlite"] else []) ++
      (StageCall.frontend project_name resource_name ::
        ((if include_tests then testsCalls b project_name resource_name else []) ++
         (if include_docker then [StageCall.docker project_name add_database] else [])))))

/-- `OrchestratorAgent.create_from_description`: extract a specification
from the description, and if its resources list is empty return the single
top-level error entry without invoking any generator; otherwise run
`create_fullstack_app` on the first resource with the specification's
flags. -/
def create_from_description (b : StageBehavior) (o : ExtractOutcome) (description : String) :
    List (String × String) × List StageCall :=
  match ((analyze_description o description).resources.getD []) with
  | [] => ([("error", "Failed to identify resources from description")], [])
  | main :: _ =>
    create_fullstack_app b ((analyze_description o description).project_name.getD "")
      main.name (main.fields.getD [])
      ((analyze_description o description).include_tests.getD true)
      ((analyze_description o description).include_docker.getD true)
      ((analyze_description o description).add_database.getD false)

/-! ## Artifact Writer (src/tools/code_generation.py)

The filesystem under the sandboxed output root is modelled as the list of
successful write records (path, content), in write order. -/

/-- `create_file_with_content`: reject a path whose final component has no
extension, then reject a path at root level (fewer than two components
below the output root); otherwise record the write. Returns the new state
and the tool's message. -/
def create_file_with_content (st : List (String × String)) (file_path content : String) :
    List (String × String) × String :=
  if pathSuffix file_path = "" then
    (st, "✗ Invalid file path '" ++ file_path ++
      "': No file extension detected. Use create_directory_structure for directories.")
  else if (pathParts file_path).length < 2 then
    (st, "✗ Invalid file path '" ++ file_path ++
      "': Files should be organized in subdirectories (backend/, frontend/, etc.)")
  else
    (st ++ [(file_path, content)], "✓ File created successfully: " ++ file_path)

/-- The issues list accumulated by `validate_file_path`. -/
def validation_issues (file_path expected_type : String) : List String :=
  (if pathSuffix file_path = ""
    then ["No file extension detected in '" ++ file_path ++ "'"] else []) ++
  (if (pathParts file_path).length < 2
    then ["File '" ++ file_path ++ "' is at root level"] else []) ++
  (if expected_type = "python" ∧ ¬ strEndsWith file_path ".py"
    then ["Expected Python file but got: " ++ pathSuffix file_path] else []) ++
  (if expected_type = "javascript" ∧
      ¬ ([".js", ".jsx", ".ts", ".tsx"].any (fun e => strEndsWith file_path e))
    then ["Expected JavaScript file but got: " ++ pathSuffix file_path] else []) ++
  (if strStartsWith file_path "backend/" ∧
      pathSuffix file_path ∈ [".js", ".jsx", ".tsx", ".html", ".css"]
    then ["Frontend file type (" ++ pathSuffix file_path ++ ") in backend directory"] else []) ++
  (if ¬ strStartsWith file_path "backend/" ∧ strStartsWith file_path "frontend/" ∧
      pathSuffix file_path = ".py"
    then ["Python file in frontend directory"] else [])

/-- The suggestions list accumulated by `validate_file_path`, parallel to
`validation_issues`. -/
def validation_suggestions (file_path expected_type : String) : List String :=
  (if pathSuffix file_path = ""
    then ["Add appropriate extension (.py, .js, .json, .yml, etc.)"] else []) ++
  (if (pathParts file_path).length < 2
    then ["Files should be in subdirectories: 'backend/', 'frontend/', etc."] else []) ++
  (if expected_type = "python" ∧ ¬ strEndsWith file_path ".py"
    then ["Python files should end with .py"] else []) ++
  (if expected_type = "javascript" ∧
      ¬ ([".js", ".jsx", ".ts", ".tsx"].any (fun e => strEndsWith file_path e))
    then ["JavaScript files should end with .js, .jsx, .ts, or .tsx"] else []) ++
  (if strStartsWith file_path "backend/" ∧
      pathSuffix file_path ∈ [".js", ".jsx", ".tsx", ".html", ".css"]
    then ["Move to 'frontend/' directory"] else []) ++
  (if ¬ strStartsWith file_path "backend/" ∧ strStartsWith file_path "frontend/" ∧
      pathSuffix file_path = ".py"
    then ["Move to 'backend/' directory"] else [])

/-- `validate_file_path`: the same checks as the writer, without writing. -/
def validate_file_path (file_path : String) (expected_type : String) : String :=
  let issues := validation_issues file_path expected_type
  let suggestions := validation_suggestions file_path expected_type
  if issues.isEmpty then
    "✓ Valid file path: " ++ file_path
  else
    "✗ Invalid path: " ++ file_path ++ "\n\nIssues:\n" ++
      String.intercalate "\n" (issues.map (fun i => "  • " ++ i)) ++
      "\n\nSuggestions:\n" ++
      String.intercalate "\n" (suggestions.map (fun s => "  → " ++ s))

/-- One entry of the parsed JSON array given to `create_multiple_files`:
the "path" key may be missing. -/
structure FileEntry where
  path : Option String
  content : String
deriving DecidableEq, Repr

/-- The created/failed/warnings partition built by `create_multiple_files`. -/
structure BatchResults where
  created : List String
  failed : List (String × String)
  warnings : List (String × String)
deriving DecidableEq, Repr

/-- Loop body of `create_multiple_files`: validate each entry (a failing
validation is recorded as a warning), then attempt the write regardless,
recording the path under created or failed by the write's result. -/
def create_multiple_files_go (st : List (String × String)) (acc : BatchResults) :
    List FileEntry → List (String × String) × BatchResults
  | [] => (st, acc)
  | e :: rest =>
    match e.path with
    | none =>
      create_multiple_files_go st
        { acc with failed := acc.failed ++ [("unknown", "Missing 'path' field")] } rest
    | some p =>
      let acc1 :=
        if strStartsWith (validate_file_path p "any") "✗" then
          { acc with warnings := acc.warnings ++ [(p, validate_file_path p "any")] }
        else acc
      let res := create_file_with_content st p e.content
      let acc2 :=
        if strStartsWith res.2 "✓" then { acc1 with created := acc1.created ++ [p] }
        else { acc1 with failed := acc1.failed ++ [(p, res.2)] }
      create_multiple_files_go res.1 acc2 rest

/-- `create_multiple_files` on an already-parsed entries list. -/
def create_multiple_files (st : List (String × String)) (entries : List FileEntry) :
    List (String × String) × BatchResults :=
  create_multiple_files_go st ⟨[], [], []⟩ entries

/-- A path the writer accepts: its final component has an extension and it
lies at least one directory below the output root (the two rejection tests
of `create_file_with_content`, in order). -/
def writeOk (p : String) : Bool :=
  if pathSuffix p = "" then false
  else if (pathParts p).length < 2 then false
  else true

/-! ## Theorems -/

/-- C1 counterexample: when the collaborator's answer parses as a JSON
object with no "resources" key (or an explicitly empty list), validation
keeps the empty resources list, so `analyze_description` returns a
specification with zero resources — the claimed invariant fails on the
successful-parse path. -/
theorem analyze_description_invariant_counterexample :
    ¬ specInvariant (analyze_description
      (.parsed ⟨none, none, none, none, none, none, none, none⟩) "a blog for posts") := by
  decide

/-- C1 (amended): the fallback path always satisfies the full Project
Specification invariant (at least one resource, each with at least one
field, every field with name and type set); the successful-parse path
guarantees only that the resources key is set and that every resource
present has its fields key set with every field's name and type set — it
does not guarantee a non-empty resources list. -/
theorem analyze_description_validation_guarantees :
    (∀ d : String, specInvariant (analyze_description .fail d)) ∧
    (∀ (raw : SpecDict) (d : String), specFieldsComplete (analyze_description (.parsed raw) d)) := by
  constructor
  · intro d
    constructor
    · simp [analyze_description, create_fallback_specification]
    · intro r hr
      simp only [analyze_description, create_fallback_specification, Option.getD_some,
        List.mem_singleton] at hr
      subst hr
      simp [fieldComplete]
  · intro raw d
    refine ⟨rfl, ?_⟩
    intro r hr
    simp only [analyze_description, validate_specification, Option.getD_some,
      List.mem_map] at hr
    obtain ⟨r0, _, rfl⟩ := hr
    cases h : r0.fields with
    | none =>
      refine ⟨by simp [validateResource, h], ?_⟩
      intro f hf
      simp only [validateResource, h, Option.getD_some, List.mem_map] at hf
      obtain ⟨f0, _, rfl⟩ := hf
      simp [validateField, fieldComplete]
    | some fs =>
      refine ⟨by simp [validateResource, h], ?_⟩
      intro f hf
      simp only [validateResource, h, Option.getD_some, List.mem_map] at hf
      obtain ⟨f0, _, rfl⟩ := hf
      simp [validateField, fieldComplete]

/-- C5: when the extracted specification has an empty resources list,
`create_from_description` returns exactly one top-level "error" entry, no
stage entries, and issues no stage generator invocation (empty trace). -/
theorem create_from_description_no_resources (b : StageBehavior) (o : ExtractOutcome)
    (d : String) (h : (analyze_description o d).resources.getD [] = []) :
    create_from_description b o d
      = ([("error", "Failed to identify resources from description")], []) := by
  unfold create_from_description
  rw [h]

/-- C5 witness: a parsed collaborator answer with no resources key reaches
the early-abort branch. -/
theorem create_from_description_no_resources_witness :
    create_from_description ⟨.ok "b", .ok "d", .ok "f", .ok "tb", .ok "tf", .ok "dk"⟩
        (.parsed ⟨none, none, none, none, none, none, none, none⟩) "desc"
      = ([("error", "Failed to identify resources from description")], []) :=
  create_from_description_no_resources _ _ _ (by decide)

/-- C6: when the refinement collaborator fails (raises, or returns output
that cannot be parsed), `refine_specification` returns the caller's input
specification unchanged. -/
theorem refine_specification_failure_identity (s : SpecDict) (feedback : String) :
    refine_specification .fail s feedback = s := rfl

/-- C9 counterexample: a parsed field whose type is not in the primitive
set survives validation unchanged — the type "banana" is still present
after `_validate_specification`, so validation does not restrict types to
the primitive set (nor default unrecognized ones). -/
theorem validate_specification_type_counterexample :
    ∃ r ∈ (validate_specification
        ⟨none, none, some [⟨"Post", some [⟨some "title", some "banana"⟩]⟩],
         none, none, none, none, none⟩).resources.getD [],
      ∃ f ∈ r.fields.getD [],
        f.type = some "banana" ∧
          "banana" ∉ ["string", "integer", "float", "boolean", "date"] ∧
          "banana" ∉ ["str", "int", "float", "bool", "date"] := by
  decide

/-- C9 (amended): after validation every field's type key is set; a field
missing its type gets "str", a resource missing its fields key gets the
default "id"/"int" and "created_at"/"date" fields, and every other type
value is preserved verbatim from the input — validation never restricts
the type to the primitive set. -/
theorem validate_specification_type_defaulting (raw : SpecDict) (r : Resource) (f : Field)
    (hr : r ∈ (validate_specification raw).resources.getD [])
    (hf : f ∈ r.fields.getD []) :
    f.type.isSome ∧
      (f.type = some "str" ∨ f.type = some "int" ∨ f.type = some "date" ∨
        ∃ r0 ∈ raw.resources.getD [], ∃ f0 ∈ r0.fields.getD [], f0.type = f.type) := by
  simp only [validate_specification, Option.getD_some, List.mem_map] at hr
  obtain ⟨r0, hr0, rfl⟩ := hr
  cases h : r0.fields with
  | none =>
    simp only [validateResource, h, Option.getD_some] at hf
    have : f = validateField ⟨some "id", some "int"⟩ ∨
        f = validateField ⟨some "created_at", some "date"⟩ := by
      simpa [defaultFields] using hf
    rcases this with rfl | rfl
    · exact ⟨rfl, Or.inr (Or.inl rfl)⟩
    · exact ⟨rfl, Or.inr (Or.inr (Or.inl rfl))⟩
  | some fs =>
    simp only [validateResource, h, Option.getD_some, List.mem_map] at hf
    obtain ⟨f0, hf0, rfl⟩ := hf
    refine ⟨rfl, ?_⟩
    cases ht : f0.type with
    | none => exact Or.inl (by simp [validateField, ht])
    | some t =>
      refine Or.inr (Or.inr (Or.inr ⟨r0, hr0, f0, ?_, ?_⟩))
      · simp [h, hf0]
      · simp [validateField, ht]

/-- C9 witness: the amended theorem applied to a concrete parsed
specification carrying an unrecognized field type. -/
theorem validate_specification_type_defaulting_witness :
    (⟨"Post", some [⟨some "title", some "banana"⟩]⟩ : Resource) ∈
        (validate_specification
          ⟨none, none, some [⟨"Post", some [⟨some "title", some "banana"⟩]⟩],
           none, none, none, none, none⟩).resources.getD [] ∧
      (⟨some "title", some "banana"⟩ : Field) ∈
        ((⟨"Post", some [⟨some "title", some "banana"⟩]⟩ : Resource).fields.getD []) ∧
      ((some "banana" : Option String).isSome ∧
        ((some "banana" : Option String) = some "str" ∨
          (some "banana" : Option String) = some "int" ∨
          (some "banana" : Option String) = some "date" ∨
          ∃ r0 ∈ (⟨none, none, some [⟨"Post", some [⟨some "title", some "banana"⟩]⟩],
              none, none, none, none, none⟩ : SpecDict).resources.getD [],
            ∃ f0 ∈ r0.fields.getD [], f0.type = some "banana")) :=
  ⟨by decide, by decide,
    validate_specification_type_defaulting
      ⟨none, none, some [⟨"Post", some [⟨some "title", some "banana"⟩]⟩],
       none, none, none, none, none⟩
      ⟨"Post", some [⟨some "title", some "banana"⟩]⟩
      ⟨some "title", some "banana"⟩ (by decide) (by decide)⟩

/-- C10: generation depends only on the specification's project name, the
optional flags, and the first resource: two extraction outcomes agreeing on
those produce the same report and issue the identical stage invocations,
whatever follows the first resource. -/
theorem create_from_description_first_resource_only (b : StageBehavior)
    (o1 o2 : ExtractOutcome) (d1 d2 : String) (r : Resource) (t1 t2 : List Resource)
    (h1 : (analyze_description o1 d1).resources.getD [] = r :: t1)
    (h2 : (analyze_description o2 d2).resources.getD [] = r :: t2)
    (hpn : (analyze_description o1 d1).project_name = (analyze_description o2 d2).project_name)
    (hit : (analyze_description o1 d1).include_tests = (analyze_description o2 d2).include_tests)
    (hid : (analyze_description o1 d1).include_docker = (analyze_description o2 d2).include_docker)
    (had : (analyze_description o1 d1).add_database = (analyze_description o2 d2).add_database) :
    create_from_description b o1 d1 = create_from_description b o2 d2 := by
  unfold create_from_description
  rw [h1, h2, hpn, hit, hid, had]

/-- C10 witness: two parsed specifications sharing their first resource but
differing in a second one yield identical reports and invocation traces. -/
theorem create_from_description_first_resource_only_witness :
    create_from_description ⟨.ok "b", .ok "d", .ok "f", .ok "tb", .ok "tf", .ok "dk"⟩
        (.parsed ⟨some "app", none,
          some [⟨"Post", some [⟨some "title", some "str"⟩]⟩, ⟨"User", none⟩],
          none, none, none, none, none⟩) "d1"
      = create_from_description ⟨.ok "b", .ok "d", .ok "f", .ok "tb", .ok "tf", .ok "dk"⟩
        (.parsed ⟨some "app", none,
          some [⟨"Post", some [⟨some "title", some "str"⟩]⟩],
          none, none, none, none, none⟩) "d2" :=
  create_from_description_first_resource_only _ _ _ _ _
    ⟨"Post", some [⟨some "title", some "str"⟩]⟩
    [⟨"User", some (defaultFields.map validateField)⟩] []
    (by decide) (by decide) (by decide) (by decide) (by decide) (by decide)

/-- C2 counterexample: with all flags true, if the backend-tests invocation
raises, the error is recorded under the key "tests", so the report's keys
are not the claimed six — "tests_frontend" is absent. -/
theorem create_fullstack_app_keys_counterexample :
    ((create_fullstack_app ⟨.ok "b", .ok "d", .ok "f", .exn "boom", .ok "tf", .ok "dk"⟩
        "p" "Post" [] true true true).1.map Prod.fst)
        = ["backend", "database", "frontend", "tests", "docker"] ∧
      "tests_frontend" ∉
        ((create_fullstack_app ⟨.ok "b", .ok "d", .ok "f", .exn "boom", .ok "tf", .ok "dk"⟩
          "p" "Post" [] true true true).1.map Prod.fst) := by
  decide

/-- C2 (amended): with all flags true the report's keys are exactly
backend, database, frontend, tests_backend, tests_frontend, docker whenever
both test invocations return normally (the other stages may succeed or
raise); a raising test invocation is instead recorded under the key
"tests". -/
theorem create_fullstack_app_six_keys (b : StageBehavior) (pn rn : String)
    (flds : List Field) (sb sf : String)
    (hb : b.tests_backend = .ok sb) (hf : b.tests_frontend = .ok sf) :
    ((create_fullstack_app b pn rn flds true true true).1.map Prod.fst)
      = ["backend", "database", "frontend", "tests_backend", "tests_frontend", "docker"] := by
  simp [create_fullstack_app, testsEntries, hb, hf]

/-- C2 witness: the amended theorem at a run whose test invocations both
succeed. -/
theorem create_fullstack_app_six_keys_witness :
    ((create_fullstack_app ⟨.exn "bx", .ok "d", .exn "fx", .ok "tb", .ok "tf", .ok "dk"⟩
        "p" "Post" [] true true true).1.map Prod.fst)
      = ["backend", "database", "frontend", "tests_backend", "tests_frontend", "docker"] :=
  create_fullstack_app_six_keys ⟨.exn "bx", .ok "d", .exn "fx", .ok "tb", .ok "tf", .ok "dk"⟩
    "p" "Post" [] "tb" "tf" rfl rfl

/-- C4: every wrapped step of `create_fullstack_app` converts an exception
into an error entry under that step's key carrying the exception's message,
and the run always proceeds: the backend and frontend entries are always
present (so a raising backend never suppresses the frontend result), as are
the entries of every enabled later step. -/
theorem create_fullstack_app_failure_isolation (b : StageBehavior) (pn rn : String)
    (flds : List Field) (it idk adb : Bool) :
    (∀ m, b.backend = .exn m →
      ("backend", "Error: " ++ m) ∈ (create_fullstack_app b pn rn flds it idk adb).1) ∧
    (∀ m, adb = true → b.database = .exn m →
      ("database", "Error: " ++ m) ∈ (create_fullstack_app b pn rn flds it idk adb).1) ∧
    (∀ m, b.frontend = .exn m →
      ("frontend", "Error: " ++ m) ∈ (create_fullstack_app b pn rn flds it idk adb).1) ∧
    (∀ m, it = true → b.tests_backend = .exn m →
      ("tests", "Error: " ++ m) ∈ (create_fullstack_app b pn rn flds it idk adb).1) ∧
    (∀ s m, it = true → b.tests_backend = .ok s → b.tests_frontend = .exn m →
      ("tests", "Error: " ++ m) ∈ (create_fullstack_app b pn rn flds it idk adb).1) ∧
    (∀ m, idk = true → b.docker = .exn m →
      ("docker", "Error: " ++ m) ∈ (create_fullstack_app b pn rn flds it idk adb).1) ∧
    ("backend" ∈ (create_fullstack_app b pn rn flds it idk adb).1.map Prod.fst) ∧
    ("frontend" ∈ (create_fullstack_app b pn rn flds it idk adb).1.map Prod.fst) ∧
    (adb = true → "database" ∈ (create_fullstack_app b pn rn flds it idk adb).1.map Prod.fst) ∧
    (idk = true → "docker" ∈ (create_fullstack_app b pn rn flds it idk adb).1.map Prod.fst) ∧
    (it = true →
      "tests_backend" ∈ (create_fullstack_app b pn rn flds it idk adb).1.map Prod.fst ∨
        "tests" ∈ (create_fullstack_app b pn rn flds it idk adb).1.map Prod.fst) := by
  refine ⟨?_, ?_, ?_, ?_, ?_, ?_, ?_, ?_, ?_, ?_, ?_⟩
  · intro m hm; simp [create_fullstack_app, outcomeResult, hm]
  · intro m ha hm; subst ha; simp [create_fullstack_app, outcomeResult, hm]
  · intro m hm; simp [create_fullstack_app, outcomeResult, hm]
  · intro m hi hm; subst hi; simp [create_fullstack_app, testsEntries, hm]
  · intro s m hi hs hm; subst hi; simp [create_fullstack_app, testsEntries, hs, hm]
  · intro m hi hm; subst hi; simp [create_fullstack_app, outcomeResult, hm]
  · simp [create_fullstack_app]
  · simp [create_fullstack_app]
  · intro ha; subst ha; simp [create_fullstack_app]
  · intro hi; subst hi; simp [create_fullstack_app]
  · intro hi; subst hi
    cases hb : b.tests_backend with
    | ok s => exact Or.inl (by simp [create_fullstack_app, testsEntries, hb])
    | exn m => exact Or.inr (by simp [create_fullstack_app, testsEntries, hb])

/-- C4 witness: a run whose backend raises and whose frontend-tests
invocation raises still records both errors and still produces a frontend
entry. -/
theorem create_fullstack_app_failure_isolation_witness :
    ("backend", "Error: bx") ∈
        (create_fullstack_app ⟨.exn "bx", .ok "d", .ok "f", .ok "tb", .exn "tf", .ok "dk"⟩
          "p" "Post" [] true true true).1 ∧
      ("tests", "Error: tf") ∈
        (create_fullstack_app ⟨.exn "bx", .ok "d", .ok "f", .ok "tb", .exn "tf", .ok "dk"⟩
          "p" "Post" [] true true true).1 ∧
      "frontend" ∈
        (create_fullstack_app ⟨.exn "bx", .ok "d", .ok "f", .ok "tb", .exn "tf", .ok "dk"⟩
          "p" "Post" [] true true true).1.map Prod.fst :=
  ⟨(create_fullstack_app_failure_isolation
      ⟨.exn "bx", .ok "d", .ok "f", .ok "tb", .exn "tf", .ok "dk"⟩ "p" "Post" [] true true true).1
      "bx" rfl,
    (create_fullstack_app_failure_isolation
      ⟨.exn "bx", .ok "d", .ok "f", .ok "tb", .exn "tf", .ok "dk"⟩ "p" "Post" [] true true
      true).2.2.2.2.1 "tb" "tf" rfl rfl rfl,
    (create_fullstack_app_failure_isolation
      ⟨.exn "bx", .ok "d", .ok "f", .ok "tb", .exn "tf", .ok "dk"⟩ "p" "Post" [] true true
      true).2.2.2.2.2.2.2.1⟩

/-- C3: the writer has no allow-list — every path resolving to the root
level of the output root is rejected with a descriptive error and nothing
is written, including the deployment stage's own "docker-compose.yml",
which the deployment instructions and `plan_project_structure("docker")`
declare a correct path. -/
theorem create_file_root_level_rejected (st : List (String × String)) (c : String) :
    (∀ p : String, (pathParts p).length < 2 → (create_file_with_content st p c).1 = st) ∧
    create_file_with_content st "docker-compose.yml" c
      = (st, "✗ Invalid file path 'docker-compose.yml': Files should be organized in subdirectories (backend/, frontend/, etc.)") := by
  constructor
  · intro p hp
    by_cases h1 : pathSuffix p = ""
    · simp [create_file_with_content, h1]
    · simp [create_file_with_content, h1, hp]
  · unfold create_file_with_content
    rw [if_neg (by decide), if_pos (by decide)]
    exact congrArg (Prod.mk st) (by decide)

/-- C3 witness: "docker-compose.yml" is a root-level path and its write is
rejected, leaving the output tree unchanged. -/
theorem create_file_root_level_rejected_witness :
    (pathParts "docker-compose.yml").length < 2 ∧
      (create_file_with_content [] "docker-compose.yml" "services:").1 = [] :=
  ⟨by decide,
    (create_file_root_level_rejected [] "services:").1 "docker-compose.yml" (by decide)⟩

/-- C7: `validate_file_path` passes "backend/main.py" (for both the python
and the unconstrained kind); fails "main.py" with a root-level diagnosis;
fails "backend" with a missing-extension diagnosis; and fails
"backend/app.js" against the python kind with a wrong-kind diagnosis. -/
theorem validate_file_path_examples :
    validate_file_path "backend/main.py" "python" = "✓ Valid file path: backend/main.py" ∧
      validate_file_path "backend/main.py" "any" = "✓ Valid file path: backend/main.py" ∧
      (strStartsWith (validate_file_path "main.py" "any") "✗" = true ∧
        "File 'main.py' is at root level" ∈ validation_issues "main.py" "any") ∧
      (strStartsWith (validate_file_path "backend" "any") "✗" = true ∧
        "No file extension detected in 'backend'" ∈ validation_issues "backend" "any") ∧
      (strStartsWith (validate_file_path "backend/app.js" "python") "✗" = true ∧
        "Expected Python file but got: .js" ∈ validation_issues "backend/app.js" "python") := by
  decide

/-- The writer's state change in one step: the file is recorded exactly
when the path passes both structural checks. -/
theorem create_file_state (st : List (String × String)) (p c : String) :
    (create_file_with_content st p c).1 = if writeOk p then st ++ [(p, c)] else st := by
  by_cases h1 : pathSuffix p = ""
  · simp [create_file_with_content, writeOk, h1]
  · by_cases h2 : (pathParts p).length < 2
    · simp [create_file_with_content, writeOk, h1, h2]
    · simp [create_file_with_content, writeOk, h1, h2]

/-- The batch loop attempts every write regardless of earlier failures: the
final output tree extends the initial one with exactly the valid-path
entries, in order. -/
theorem create_multiple_files_go_state (entries : List FileEntry) :
    ∀ (st : List (String × String)) (acc : BatchResults),
      (create_multiple_files_go st acc entries).1
        = st ++ entries.filterMap
            (fun e => e.path.bind (fun p => if writeOk p then some (p, e.content) else none)) := by
  induction entries with
  | nil => intro st acc; simp [create_multiple_files_go]
  | cons e rest ih =>
    intro st acc
    cases hp : e.path with
    | none => simp [create_multiple_files_go, hp, ih]
    | some p =>
      by_cases hw : writeOk p
      · simp [create_multiple_files_go, hp, create_file_state, hw, ih]
      · simp [create_multiple_files_go, hp, create_file_state, hw, ih]

/-- C8: the batch write validates each entry, attempts every write
regardless of earlier failures (the final tree is the initial one plus
exactly the valid-path entries), and partitions the outcome into
created/failed/warned; on a 3-entry batch whose second path is invalid it
reports 2 created, 1 failed (that path), 1 warning, and both valid files
are present in the output tree. -/
theorem create_multiple_files_batch_behavior :
    (∀ (st : List (String × String)) (entries : List FileEntry),
        (create_multiple_files st entries).1
          = st ++ entries.filterMap
              (fun e => e.path.bind (fun p => if writeOk p then some (p, e.content) else none))) ∧
      ((create_multiple_files []
          [⟨some "backend/main.py", "code1"⟩, ⟨some "main.py", "code2"⟩,
           ⟨some "frontend/app.js", "code3"⟩]).2.created.length = 2 ∧
        (create_multiple_files []
          [⟨some "backend/main.py", "code1"⟩, ⟨some "main.py", "code2"⟩,
           ⟨some "frontend/app.js", "code3"⟩]).2.failed.map Prod.fst = ["main.py"] ∧
        (create_multiple_files []
          [⟨some "backend/main.py", "code1"⟩, ⟨some "main.py", "code2"⟩,
           ⟨some "frontend/app.js", "code3"⟩]).2.warnings.length = 1 ∧
        ("backend/main.py", "code1") ∈
          (create_multiple_files []
            [⟨some "backend/main.py", "code1"⟩, ⟨some "main.py", "code2"⟩,
             ⟨some "frontend/app.js", "code3"⟩]).1 ∧
        ("frontend/app.js", "code3") ∈
          (create_multiple_files []
            [⟨some "backend/main.py", "code1"⟩, ⟨some "main.py", "code2"⟩,
             ⟨some "frontend/app.js", "code3"⟩]).1) :=
  ⟨fun st entries => create_multiple_files_go_state entries st ⟨[], [], []⟩, by decide⟩

end FullstackAgent
